import Mathlib

/-!
# Verification of `fixup_iterators.cpp`

A shallow embedding of the iterator-fixup adapter.  The C++ source is a
compile-time metaprogram: given an iterator ("cursor") type `IterTy`, the
class template `iterator_fixup<IterTy>` inherits from `IterTy`, recomputes
the member types `reference` and `pointer` from the actual return types of
`operator*` and `operator->`, and fills in `value_type`, `difference_type`
and `iterator_category` with fallbacks when the underlying type does not
declare them.

We embed this at two levels:

* a *type level*: `CursorTy` records which member types and operations a
  cursor type declares, `Ty` is a small universe of C++ types, and
  `iterator_fixup_meta` computes the five member types of
  `iterator_fixup<IterTy>` exactly as lines 70-81 of the source do;
* a *value level*: `CursorOps` packages the runtime operations of a cursor
  type, `Fixed` is the wrapper value (it stores the base-class subobject,
  a copy of the wrapped cursor), and `fixedOps` is the inherited operation
  set.  An explicit object store (`List σ` indexed by object identity)
  models the copy-construction frame properties.
-/

/-- A small universe of C++ types, sufficient to express the member-type
computations of the source: a few scalar types, named (opaque) class types,
reference types and pointer types. -/
inductive Ty where
  | int : Ty
  | ptrdiff : Ty
  | named : String → Ty
  | ref : Ty → Ty
  | ptr : Ty → Ty
deriving DecidableEq, Repr

/-- `std::remove_reference_t`: strips a top-level reference qualifier and
leaves every other type unchanged. -/
def remove_reference : Ty → Ty
  | .ref t => t
  | .int => .int
  | .ptrdiff => .ptrdiff
  | .named s => .named s
  | .ptr t => .ptr t

/-- The standard iterator-category tags. -/
inductive IterCat where
  | input : IterCat
  | output : IterCat
  | forward : IterCat
  | bidirectional : IterCat
  | randomAccess : IterCat
deriving DecidableEq, Repr

/-- What a user-supplied cursor type provides, as seen by the template
machinery of the source:

* `derefRet` / `arrowRet`: the actual return types of `operator*` and
  `operator->` (`none` when the operator is missing or ill-formed — in that
  case the `decltype` on lines 70-71 of the source fails to resolve);
* `value_type`, `difference_type`, `iterator_category`, `reference`,
  `pointer`: the nested member types the cursor type declares for itself
  (`none` when not declared); the declared `reference`/`pointer` may well
  disagree with `derefRet`/`arrowRet`;
* `hasCopyCtor`, `hasMoveCtor`, `hasPreInc`, `hasPostInc`, `hasEq`,
  `hasNe`: whether the corresponding special member / operator exists. -/
structure CursorTy where
  derefRet : Option Ty
  arrowRet : Option Ty
  value_type : Option Ty
  difference_type : Option Ty
  iterator_category : Option IterCat
  reference : Option Ty
  pointer : Option Ty
  hasCopyCtor : Bool
  hasMoveCtor : Bool
  hasPreInc : Bool
  hasPostInc : Bool
  hasEq : Bool
  hasNe : Bool
deriving DecidableEq, Repr

namespace detail

/-- Lines 7-15 of the source: `detail::inferred_value_type<IterTy, Reference>`.
If `IterTy::value_type` exists it is used verbatim (the specialization on
line 12); otherwise the result is `std::remove_reference_t<Reference>`
(the primary template on line 7). -/
def inferred_value_type (c : CursorTy) (reference : Ty) : Ty :=
  match c.value_type with
  | some v => v
  | none => remove_reference reference

/-- Lines 17-25 of the source: `detail::inferred_difference_type<IterTy>`.
If `IterTy::difference_type` exists it is used verbatim; otherwise the
result is `std::ptrdiff_t`. -/
def inferred_difference_type (c : CursorTy) : Ty :=
  match c.difference_type with
  | some d => d
  | none => Ty.ptrdiff

/-- Lines 27-35 of the source: `detail::inferred_iterator_category<IterTy>`.
If `IterTy::iterator_category` exists it is used verbatim; otherwise the
result is `std::input_iterator_tag`. -/
def inferred_iterator_category (c : CursorTy) : IterCat :=
  match c.iterator_category with
  | some t => t
  | none => IterCat.input

end detail

/-- The five member types of `iterator_fixup<IterTy>` (lines 70-81 of the
source). -/
structure FixupMeta where
  reference : Ty
  pointer : Ty
  value_type : Ty
  difference_type : Ty
  iterator_category : IterCat
deriving DecidableEq, Repr

/-- The member-type computation of `iterator_fixup<IterTy>` (lines 67-81 of
the source).  Instantiating the class requires the `decltype`s on lines
70-71 to resolve, so the computation fails (`none`) exactly when the
cursor type lacks a well-formed `operator*` or `operator->`; otherwise:

* `reference` is the actual return type of `operator*` (line 70),
* `pointer` is the actual return type of `operator->` (line 71),
* `value_type` is `detail::inferred_value_type` applied to the computed
  `reference` (line 74),
* `difference_type` is `detail::inferred_difference_type` (line 77),
* `iterator_category` is `detail::inferred_iterator_category` (line 81).

The declared `c.reference` and `c.pointer` are never consulted. -/
def iterator_fixup_meta (c : CursorTy) : Option FixupMeta :=
  match c.derefRet, c.arrowRet with
  | some r, some p =>
      some { reference := r
             pointer := p
             value_type := detail.inferred_value_type c r
             difference_type := detail.inferred_difference_type c
             iterator_category := detail.inferred_iterator_category c }
  | _, _ => none

/-- The §3 capability set: a read operation (`operator*`), a structured-read
operation (`operator->`), both advance forms (`operator++` pre and post),
equality and inequality tests, and copy construction. -/
def capabilitySet (c : CursorTy) : Bool :=
  c.derefRet.isSome && c.arrowRet.isSome && c.hasPreInc && c.hasPostInc &&
    c.hasEq && c.hasNe && c.hasCopyCtor

/-- The value category of the argument handed to `fixup_iterator`. -/
inductive ValueCategory where
  | lvalue : ValueCategory
  | rvalue : ValueCategory
deriving DecidableEq, Repr

/-- Whether `fixup_iterator` (lines 115-118) accepts its argument.  The
parameter `IterTy &&iter` on line 116 is a forwarding reference, so
template argument deduction depends on the argument's value category:

* an **lvalue** of type `T` deduces `IterTy = T&`, and the function
  returns `iterator_fixup<T&>`, whose base clause on line 66 is
  `public T&` — a reference type is not a valid base class, so the
  instantiation is ill-formed for *every* cursor type, whatever its
  capabilities (the `const decayed_type &` constructor on lines 88-90 is
  unreachable through `fixup_iterator`);
* an **rvalue** of type `T` deduces `IterTy = T`; instantiating
  `iterator_fixup<T>` then needs the `decltype`s on lines 70-71 to
  resolve, and the constructor on lines 92-95 initializes the base with
  `IterTy{ std::move(iter) }`, which needs a move constructor or, failing
  that, a copy constructor for the rvalue to bind to. -/
def wrapAccepted (c : CursorTy) (vc : ValueCategory) : Bool :=
  match vc with
  | .lvalue => false
  | .rvalue =>
      c.derefRet.isSome && c.arrowRet.isSome && (c.hasMoveCtor || c.hasCopyCtor)

/-- `iterator_fixup<IterTy>` itself, viewed as a cursor type: all runtime
operations and both constructors are inherited from (or forward to) the
base, so `operator*`/`operator->` return the same types as the base's, and
each of the five member types computed by `iterator_fixup_meta` is now
*declared* by the wrapped type. -/
def fixupAsCursorTy (c : CursorTy) (m : FixupMeta) : CursorTy :=
  { derefRet := c.derefRet
    arrowRet := c.arrowRet
    value_type := some m.value_type
    difference_type := some m.difference_type
    iterator_category := some m.iterator_category
    reference := some m.reference
    pointer := some m.pointer
    hasCopyCtor := c.hasCopyCtor
    hasMoveCtor := c.hasMoveCtor
    hasPreInc := c.hasPreInc
    hasPostInc := c.hasPostInc
    hasEq := c.hasEq
    hasNe := c.hasNe }

/-! ## Value level: runtime behaviour of the wrapper

A cursor *value* is a state `s : σ`; `CursorOps` packages the runtime
operations of its type.  `operator*` returns some result type `α`,
`operator->` some result type `β`; pre-increment mutates the state (its
C++ result is a reference to the mutated cursor itself); post-increment
returns a result of some type `ρ` (for conformant cursors a pre-advance
snapshot, but the source forwards whatever shape the underlying type
returns) together with the mutated state. -/
structure CursorOps (σ α β ρ : Type) where
  deref : σ → α
  arrow : σ → β
  preInc : σ → σ
  postInc : σ → ρ × σ
  beq : σ → σ → Bool
  bne : σ → σ → Bool

/-- The wrapper value: `iterator_fixup<IterTy>` inherits from `IterTy`, so
its entire runtime state is the base-class subobject — a copy of the
cursor value it was constructed from (lines 88-95 and the commentary on
lines 105-112 of the source). -/
structure Fixed (σ : Type) where
  iter : σ

/-- `fixup_iterator` (lines 115-118): wraps a cursor value.  At the value
level both constructors (lines 88-95) initialize the base subobject from
the argument. -/
def fixup_iterator (c : σ) : Fixed σ :=
  ⟨c⟩

/-- The runtime operations of `iterator_fixup<IterTy>`: every operator is
inherited from the base class (lines 101-103 of the source), so it acts on
the base subobject and returns exactly what the base's operator returns.
Pre-increment mutates the base subobject (hence the whole wrapper state);
post-increment and the comparisons return the base type's shapes. -/
def fixedOps (ops : CursorOps σ α β ρ) : CursorOps (Fixed σ) α β ρ where
  deref w := ops.deref w.iter
  arrow w := ops.arrow w.iter
  preInc w := ⟨ops.preInc w.iter⟩
  postInc w := ((ops.postInc w.iter).1, ⟨(ops.postInc w.iter).2⟩)
  beq a b := ops.beq a.iter b.iter
  bne a b := ops.bne a.iter b.iter

/-- The cursor state after `n` pre-advances. -/
def advanceN (ops : CursorOps σ α β ρ) (c : σ) : Nat → σ
  | 0 => c
  | n + 1 => advanceN ops (ops.preInc c) n

/-- The sequence of values read at steps `0, 1, ..., n-1` of an advance
sequence: the value read after `k` advances, for each `k < n`. -/
def readTrace (ops : CursorOps σ α β ρ) (c : σ) (n : Nat) : List α :=
  (List.range n).map fun k => ops.deref (advanceN ops c k)

/-! ## Object store: copy semantics and frame effects

To state the ownership claims honestly we model object identity: a store
is a list of cursor states indexed by object id, wrapping by copy reads
the source object and *appends* a fresh object holding a copy of its
state, and advancing a wrapped cursor mutates only the object it owns. -/

/-- Wrap the cursor object at id `cid` by copy: the new wrapper's base
subobject is a fresh object initialized from the source's state (the
`const decayed_type &` constructor on lines 88-90 cannot modify its
source).  Returns the new store and the new object's id.  A missing id
leaves the store unchanged. -/
def wrapCopyAt (st : List σ) (cid : Nat) : List σ × Nat :=
  match st[cid]? with
  | some v => (st ++ [v], st.length)
  | none => (st, st.length)

/-- Pre-advance the wrapped cursor object at id `i`, in place. -/
def advanceAt (ops : CursorOps σ α β ρ) (st : List σ) (i : Nat) : List σ :=
  match st[i]? with
  | some v => st.set i (ops.preInc v)
  | none => st

/-- `n` successive pre-advances of the object at id `i`. -/
def advanceAtN (ops : CursorOps σ α β ρ) (st : List σ) (i : Nat) : Nat → List σ
  | 0 => st
  | n + 1 => advanceAtN ops (advanceAt ops st i) i n

/-! ## Constructor set

Lines 83-95 of the source: the wrapper declares exactly two constructors,
one from `const decayed_type &` and one from `decayed_type &&`; since the
class has user-declared constructors, C++ generates no implicit default
constructor. -/

/-- The user-declared constructor shapes of `iterator_fixup`. -/
inductive CtorKind where
  | fromConstLValueRef : CtorKind
  | fromRValueRef : CtorKind
deriving DecidableEq, Repr

/-- Number of arguments each declared constructor takes. -/
def ctorArity : CtorKind → Nat
  | .fromConstLValueRef => 1
  | .fromRValueRef => 1

/-- The constructors declared by `iterator_fixup` (lines 88-95). -/
def iterator_fixup_ctors : List CtorKind :=
  [CtorKind.fromConstLValueRef, CtorKind.fromRValueRef]

/-- The C++ rule for the implicit default constructor: it is generated only
when the class declares no constructor at all. -/
def defaultConstructible (userCtors : List CtorKind) : Bool :=
  userCtors.isEmpty

/-! ## Construction by copy and by ownership transfer

A constructor of the underlying type both produces the new base subobject
and may affect the source object; we model it as `σ → σ × σ`
(new value, source afterwards).  The copy constructor takes its source by
`const &` and therefore leaves it unchanged; the move constructor (when
one exists) is arbitrary. -/

/-- Construction of the wrapper from a const lvalue — the *class*
constructor on lines 88-90: the base is copy-initialized, the source is
untouched.  Note this constructor is reachable only by naming
`iterator_fixup<T>` directly; calling `fixup_iterator` with an lvalue
never gets here, because deduction produces `iterator_fixup<T&>`, which
fails to instantiate (see `wrapAccepted`). -/
def fixupFromLValue (c : σ) : Fixed σ × σ :=
  (⟨c⟩, c)

/-- A move constructor of the underlying cursor type, when it has one:
`(new value, moved-from source)`. -/
structure MoveSpec (σ : Type) where
  hasMoveCtor : Bool
  moveCtor : σ → σ × σ

/-- Construction of the wrapper from an rvalue (lines 92-95):
`IterTy{ std::move(iter) }` selects the underlying move constructor when
one exists; otherwise the rvalue binds to the copy constructor (the
comment on line 92 of the source), which copies and leaves the source
unchanged. -/
def fixupFromRValue (ms : MoveSpec σ) (c : σ) : Fixed σ × σ :=
  if ms.hasMoveCtor then
    let r := ms.moveCtor c
    (⟨r.1⟩, r.2)
  else
    (⟨c⟩, c)

/-! ## Ranges and the pipeline adaptor -/

/-- `boost::make_iterator_range b e`: a pair of bounds. -/
structure IterRange (ι : Type) where
  first : ι
  last : ι
deriving DecidableEq, Repr

/-- Line 122-123: `boost::make_iterator_range`. -/
def make_iterator_range (b e : ι) : IterRange ι :=
  ⟨b, e⟩

/-- A range value: something with `begin()` and `end()` cursors. -/
structure RangeVal (σ : Type) where
  beginCursor : σ
  endCursor : σ

/-- `fixup_range` (lines 120-124): wraps both bounds of the range and
packages them with `boost::make_iterator_range`. -/
def fixup_range (r : RangeVal σ) : IterRange (Fixed σ) :=
  make_iterator_range (fixup_iterator r.beginCursor) (fixup_iterator r.endCursor)

/-- The pipeline marker `range_fixup_adaptor` (line 126). -/
structure range_fixup_adaptor where
deriving DecidableEq, Repr

/-- Lines 128-131: `operator|(range, range_fixup_adaptor)` forwards to
`fixup_range`. -/
def pipeFixup (r : RangeVal σ) (_ : range_fixup_adaptor) : IterRange (Fixed σ) :=
  fixup_range r

/-! ## Concrete cursor types from the example section of the source -/

/-- The `rvalue_iterator` example (lines 140-155): `operator*` returns
`int` *by value* although the declared `reference` is `int&`, and
`operator->` returns `int*`. -/
def rvalue_iterator : CursorTy :=
  { derefRet := some Ty.int
    arrowRet := some (Ty.ptr Ty.int)
    value_type := some Ty.int
    difference_type := some Ty.ptrdiff
    iterator_category := some IterCat.input
    reference := some (Ty.ref Ty.int)
    pointer := some (Ty.ptr Ty.int)
    hasCopyCtor := true
    hasMoveCtor := true
    hasPreInc := true
    hasPostInc := true
    hasEq := true
    hasNe := true }

/-- The `pointer_rvalue_iterator` example (lines 157-172): `operator*`
returns `int*` by value although the declared `reference` is `int*&`, and
`operator->` returns `int**`. -/
def pointer_rvalue_iterator : CursorTy :=
  { derefRet := some (Ty.ptr Ty.int)
    arrowRet := some (Ty.ptr (Ty.ptr Ty.int))
    value_type := some (Ty.ptr Ty.int)
    difference_type := some Ty.ptrdiff
    iterator_category := some IterCat.input
    reference := some (Ty.ref (Ty.ptr Ty.int))
    pointer := some (Ty.ptr (Ty.ptr Ty.int))
    hasCopyCtor := true
    hasMoveCtor := true
    hasPreInc := true
    hasPostInc := true
    hasEq := true
    hasNe := true }

/-- A cursor type that declares none of the five member types: `operator*`
returns `int&`, `operator->` returns `int*`, and there is no declared
`value_type`, `difference_type` or `iterator_category`. -/
def bareCursor : CursorTy :=
  { derefRet := some (Ty.ref Ty.int)
    arrowRet := some (Ty.ptr Ty.int)
    value_type := none
    difference_type := none
    iterator_category := none
    reference := none
    pointer := none
    hasCopyCtor := true
    hasMoveCtor := false
    hasPreInc := true
    hasPostInc := true
    hasEq := true
    hasNe := true }

/-- The metadata `iterator_fixup` computes for `bareCursor`. -/
def bareMeta : FixupMeta :=
  { reference := Ty.ref Ty.int
    pointer := Ty.ptr Ty.int
    value_type := Ty.int
    difference_type := Ty.ptrdiff
    iterator_category := IterCat.input }

/-- The metadata `iterator_fixup` computes for `pointer_rvalue_iterator`. -/
def prvMeta : FixupMeta :=
  { reference := Ty.ptr Ty.int
    pointer := Ty.ptr (Ty.ptr Ty.int)
    value_type := Ty.ptr Ty.int
    difference_type := Ty.ptrdiff
    iterator_category := IterCat.input }

/-- A concrete cursor over `Nat` used for runtime witnesses: reading
yields the current state, advancing increments it. -/
def natCursorOps : CursorOps Nat Nat Nat Nat :=
  { deref := fun s => s
    arrow := fun s => s
    preInc := fun s => s + 1
    postInc := fun s => (s, s + 1)
    beq := fun a b => a == b
    bne := fun a b => a != b }

/-! ## Helper lemmas -/

/-- When the cursor type has both a read and a structured-read operation,
`iterator_fixup_meta` succeeds and computes exactly the fields of lines
70-81 of the source. -/
theorem iterator_fixup_meta_eq (c : CursorTy) (r p : Ty)
    (hr : c.derefRet = some r) (hp : c.arrowRet = some p) :
    iterator_fixup_meta c
      = some { reference := r
               pointer := p
               value_type := detail.inferred_value_type c r
               difference_type := detail.inferred_difference_type c
               iterator_category := detail.inferred_iterator_category c } := by
  unfold iterator_fixup_meta
  rw [hr, hp]

/-- Inversion for `iterator_fixup_meta`: when the computation succeeds,
each field of the result is what lines 70-81 of the source compute. -/
theorem iterator_fixup_meta_some_inv (c : CursorTy) (m : FixupMeta)
    (h : iterator_fixup_meta c = some m) :
    c.derefRet = some m.reference ∧ c.arrowRet = some m.pointer ∧
    m.value_type = detail.inferred_value_type c m.reference ∧
    m.difference_type = detail.inferred_difference_type c ∧
    m.iterator_category = detail.inferred_iterator_category c := by
  unfold iterator_fixup_meta at h
  cases hr : c.derefRet with
  | none => rw [hr] at h; exact absurd h (by simp)
  | some r =>
    cases hp : c.arrowRet with
    | none => rw [hr, hp] at h; exact absurd h (by simp)
    | some p =>
      rw [hr, hp] at h
      simp only [Option.some_inj] at h
      subst h
      exact ⟨rfl, rfl, rfl, rfl, rfl⟩

/-- The wrapper state after `n` advances is the wrapped cursor state after
`n` advances. -/
theorem advanceN_fixedOps (ops : CursorOps σ α β ρ) (c : σ) (n : Nat) :
    advanceN (fixedOps ops) (fixup_iterator c) n = fixup_iterator (advanceN ops c n) := by
  induction n generalizing c with
  | zero => rfl
  | succ n ih => exact ih (ops.preInc c)

/-- Advancing the object at id `i` does not change any other object. -/
theorem advanceAt_getElem_ne (ops : CursorOps σ α β ρ) (st : List σ)
    (i j : Nat) (hij : i ≠ j) : (advanceAt ops st i)[j]? = st[j]? := by
  unfold advanceAt
  cases hv : st[i]? with
  | none => rfl
  | some v => exact List.getElem?_set_ne hij

/-- Repeatedly advancing the object at id `i` does not change any other
object. -/
theorem advanceAtN_getElem_ne (ops : CursorOps σ α β ρ) (st : List σ)
    (i j : Nat) (hij : i ≠ j) (n : Nat) :
    (advanceAtN ops st i n)[j]? = st[j]? := by
  induction n generalizing st with
  | zero => rfl
  | succ n ih => rw [advanceAtN, ih (advanceAt ops st i), advanceAt_getElem_ne ops st i j hij]

/-! ## Claims -/

/-- Claim C1: whenever a cursor type is wrapped, the wrapper's `reference` member
type equals the actual return type of the cursor's `operator*` and its
`pointer` member type equals the actual return type of the cursor's
`operator->`; any `reference`/`pointer` member types the cursor declares
for itself are irrelevant — changing them changes nothing in the computed
metadata. -/
theorem wrapped_reference_pointer_authoritative (c : CursorTy) (m : FixupMeta)
    (h : iterator_fixup_meta c = some m) :
    c.derefRet = some m.reference ∧ c.arrowRet = some m.pointer ∧
    ∀ rr pp : Option Ty,
      iterator_fixup_meta { c with reference := rr, pointer := pp } = some m := by
  obtain ⟨hr, hp, hv, hd, hc⟩ := iterator_fixup_meta_some_inv c m h
  refine ⟨hr, hp, fun rr pp => ?_⟩
  have he := iterator_fixup_meta_eq { c with reference := rr, pointer := pp }
    m.reference m.pointer hr hp
  rw [he,
    show detail.inferred_value_type { c with reference := rr, pointer := pp } m.reference
        = detail.inferred_value_type c m.reference from rfl,
    show detail.inferred_difference_type { c with reference := rr, pointer := pp }
        = detail.inferred_difference_type c from rfl,
    show detail.inferred_iterator_category { c with reference := rr, pointer := pp }
        = detail.inferred_iterator_category c from rfl,
    ← hv, ← hd, ← hc]

/-- Witness for C1: `pointer_rvalue_iterator` declares `reference` as
`int*&`, but the computed metadata carries the actual `operator*` return
type `int*`; replacing the declared `reference`/`pointer` with arbitrary
other types leaves the computed metadata untouched. -/
theorem wrapped_reference_pointer_authoritative_witness :
    iterator_fixup_meta
      { pointer_rvalue_iterator with reference := some (Ty.ref Ty.int), pointer := none }
      = some prvMeta :=
  (wrapped_reference_pointer_authoritative pointer_rvalue_iterator prvMeta rfl).2.2
    (some (Ty.ref Ty.int)) none

/-- Claim C2: the wrapper's `value_type` is the cursor's own declared
`value_type` when one is declared (used verbatim), and otherwise the
computed `reference` type with any reference qualifier stripped. -/
theorem wrapped_value_type_inference (c : CursorTy) (m : FixupMeta)
    (h : iterator_fixup_meta c = some m) :
    (∀ v, c.value_type = some v → m.value_type = v) ∧
    (c.value_type = none → m.value_type = remove_reference m.reference) := by
  obtain ⟨_, _, hv, _, _⟩ := iterator_fixup_meta_some_inv c m h
  constructor
  · intro v hvd
    rw [hv, detail.inferred_value_type, hvd]
  · intro hvd
    rw [hv, detail.inferred_value_type, hvd]

/-- Witness for C2: `bareCursor` declares no `value_type`; its wrapper's
`value_type` is `int`, the computed reference `int&` stripped of its
reference qualifier. -/
theorem wrapped_value_type_inference_witness :
    bareMeta.value_type = remove_reference bareMeta.reference :=
  (wrapped_value_type_inference bareCursor bareMeta rfl).2 rfl

/-- Claim C5: the wrapper's `iterator_category` defaults to the weakest
(single-pass input) tag when the cursor declares none, and is the cursor's
own declared tag verbatim when one is declared. -/
theorem wrapped_iterator_category_inference (c : CursorTy) (m : FixupMeta)
    (h : iterator_fixup_meta c = some m) :
    (c.iterator_category = none → m.iterator_category = IterCat.input) ∧
    (∀ t, c.iterator_category = some t → m.iterator_category = t) := by
  obtain ⟨_, _, _, _, hc⟩ := iterator_fixup_meta_some_inv c m h
  constructor
  · intro hcd
    rw [hc, detail.inferred_iterator_category, hcd]
  · intro t hcd
    rw [hc, detail.inferred_iterator_category, hcd]

/-- Witness for C5: `bareCursor` declares no `iterator_category`; its
wrapper's category is the input (single-pass) tag. -/
theorem wrapped_iterator_category_inference_witness :
    bareMeta.iterator_category = IterCat.input :=
  (wrapped_iterator_category_inference bareCursor bareMeta rfl).1 rfl

/-- Claim C6: the wrapper's `difference_type` defaults to `std::ptrdiff_t` (the
platform's signed pointer-difference type) when the cursor declares none,
and is the cursor's own declared `difference_type` verbatim when one is
declared. -/
theorem wrapped_difference_type_inference (c : CursorTy) (m : FixupMeta)
    (h : iterator_fixup_meta c = some m) :
    (c.difference_type = none → m.difference_type = Ty.ptrdiff) ∧
    (∀ d, c.difference_type = some d → m.difference_type = d) := by
  obtain ⟨_, _, _, hd, _⟩ := iterator_fixup_meta_some_inv c m h
  constructor
  · intro hdd
    rw [hd, detail.inferred_difference_type, hdd]
  · intro d hdd
    rw [hd, detail.inferred_difference_type, hdd]

/-- Witness for C6: `bareCursor` declares no `difference_type`; its
wrapper's `difference_type` is `std::ptrdiff_t`. -/
theorem wrapped_difference_type_inference_witness :
    bareMeta.difference_type = Ty.ptrdiff :=
  (wrapped_difference_type_inference bareCursor bareMeta rfl).1 rfl

/-- Claim C3: the wrapper is behaviourally transparent — for any advance
sequence the values read through the wrapper equal the values read
directly through the underlying cursor at the same steps; equality and
inequality of wrappers agree with equality and inequality of the
underlying cursor values; pre- and post-advance forward to the underlying
cursor's operations and return the underlying shapes. -/
theorem wrapped_behavioral_transparency {σ α β ρ : Type}
    (ops : CursorOps σ α β ρ) (c : σ) :
    (∀ n, readTrace (fixedOps ops) (fixup_iterator c) n = readTrace ops c n) ∧
    (∀ a b : σ,
      (fixedOps ops).beq (fixup_iterator a) (fixup_iterator b) = ops.beq a b ∧
      (fixedOps ops).bne (fixup_iterator a) (fixup_iterator b) = ops.bne a b) ∧
    (∀ w : Fixed σ,
      (fixedOps ops).preInc w = ⟨ops.preInc w.iter⟩ ∧
      (fixedOps ops).postInc w = ((ops.postInc w.iter).1, ⟨(ops.postInc w.iter).2⟩)) := by
  refine ⟨fun n => ?_, fun a b => ⟨rfl, rfl⟩, fun w => ⟨rfl, rfl⟩⟩
  simp only [readTrace, advanceN_fixedOps]
  rfl

/-- Claim C4, evaluated at the failing input: the claim asserts that
`fixup_iterator` accepts a cursor value by copy from an lvalue and that
wrapping is rejected only when a capability-set operation is missing or
ill-formed.  The code contradicts this: passing an **lvalue** of
`rvalue_iterator` — a cursor type satisfying the entire capability set —
deduces `IterTy = rvalue_iterator&`, and `iterator_fixup<rvalue_iterator&>
: public rvalue_iterator&` has a reference type as base class, which is
ill-formed; the very same cursor type passed as an rvalue is accepted.
The spec's copy path (§4.2, the `const decayed_type &` constructor the
source wrote for it on lines 88-90) is unreachable through
`fixup_iterator`: the deduction on line 116 should have instantiated
`iterator_fixup<std::decay_t<IterTy>>` for the class's two constructors to
play their documented roles. -/
theorem wrap_lvalue_rejected_despite_capability :
    capabilitySet rvalue_iterator = true ∧
    wrapAccepted rvalue_iterator ValueCategory.lvalue = false ∧
    wrapAccepted rvalue_iterator ValueCategory.rvalue = true := by
  exact ⟨rfl, rfl, rfl⟩

/-- Claim C7: wrapping the cursor object at id `cid` by copy allocates a fresh
object holding a copy of its state; advancing the wrapped copy any number
of times leaves the original object's state untouched; and two wrapped
cursors built from the same original do not observe each other's
advancement. -/
theorem wrapped_cursor_ownership_independence {σ α β ρ : Type}
    (ops : CursorOps σ α β ρ) (st : List σ) (cid : Nat) (v : σ)
    (h : st[cid]? = some v) :
    wrapCopyAt st cid = (st ++ [v], st.length) ∧
    (∀ n, (advanceAtN ops (st ++ [v]) st.length n)[cid]? = some v) ∧
    (∀ n, (advanceAtN ops ((st ++ [v]) ++ [v]) st.length n)[st.length + 1]? = some v) ∧
    (∀ n, (advanceAtN ops ((st ++ [v]) ++ [v]) (st.length + 1) n)[st.length]? = some v) := by
  obtain ⟨hlt, -⟩ := List.getElem?_eq_some.mp h
  have hlen : (st ++ [v]).length = st.length + 1 := by
    simp
  refine ⟨?_, fun n => ?_, fun n => ?_, fun n => ?_⟩
  · unfold wrapCopyAt
    rw [h]
  · rw [advanceAtN_getElem_ne ops (st ++ [v]) st.length cid (Nat.ne_of_lt hlt).symm n,
      List.getElem?_append_left hlt]
    exact h
  · rw [advanceAtN_getElem_ne ops ((st ++ [v]) ++ [v]) st.length (st.length + 1)
      (Nat.ne_of_lt (Nat.lt_succ_self st.length)) n, ← hlen,
      List.getElem?_concat_length]
  · rw [advanceAtN_getElem_ne ops ((st ++ [v]) ++ [v]) (st.length + 1) st.length
      (Nat.succ_ne_self st.length) n,
      List.getElem?_append_left (by rw [hlen]; exact Nat.lt_succ_self st.length),
      List.getElem?_concat_length]

/-- Witness for C7: a one-object store over the `Nat` cursor; after three
advances of the wrapped copy the original object still holds its value. -/
theorem wrapped_cursor_ownership_independence_witness :
    (advanceAtN natCursorOps ([4] ++ [4]) 1 3)[0]? = some 4 :=
  (wrapped_cursor_ownership_independence natCursorOps [4] 0 4 rfl).2.1 3

/-- Claim C8: `iterator_fixup` declares two constructors, each taking exactly
one cursor value; since the class has user-declared constructors, the
implicit default (argument-less) constructor is not generated, and every
wrapper value is the wrap of some cursor value. -/
theorem wrapped_no_default_construction :
    defaultConstructible iterator_fixup_ctors = false ∧
    (iterator_fixup_ctors.all fun k => ctorArity k == 1) = true ∧
    ∀ (σ : Type) (w : Fixed σ), w = fixup_iterator w.iter := by
  exact ⟨rfl, rfl, fun σ w => rfl⟩

/-- Claim C9: piping a range into the `range_fixup_adaptor` marker yields
exactly `fixup_range` of that range, i.e. `boost::make_iterator_range`
applied to the wraps of the range's `begin()` and `end()` cursors. -/
theorem pipe_adaptor_equals_fixup_range {σ : Type} (r : RangeVal σ)
    (a : range_fixup_adaptor) :
    pipeFixup r a = fixup_range r ∧
    pipeFixup r a
      = make_iterator_range (fixup_iterator r.beginCursor) (fixup_iterator r.endCursor) :=
  ⟨rfl, rfl⟩

/-- Claim C10: wrapping an already-wrapped cursor type is accepted exactly when
the once-wrapped type is, and produces identical metadata — all five
member types are unchanged; at the value level the doubly-wrapped cursor
reads, advances and compares exactly like the once-wrapped one. -/
theorem wrap_metadata_idempotent (c : CursorTy) (m : FixupMeta)
    (h : iterator_fixup_meta c = some m) :
    iterator_fixup_meta (fixupAsCursorTy c m) = some m ∧
    wrapAccepted (fixupAsCursorTy c m) = wrapAccepted c ∧
    ∀ (σ α β ρ : Type) (ops : CursorOps σ α β ρ) (x y : σ),
      (fixedOps (fixedOps ops)).deref (fixup_iterator (fixup_iterator x))
          = (fixedOps ops).deref (fixup_iterator x) ∧
      (fixedOps (fixedOps ops)).arrow (fixup_iterator (fixup_iterator x))
          = (fixedOps ops).arrow (fixup_iterator x) ∧
      ((fixedOps (fixedOps ops)).preInc (fixup_iterator (fixup_iterator x))).iter
          = (fixedOps ops).preInc (fixup_iterator x) ∧
      (fixedOps (fixedOps ops)).beq (fixup_iterator (fixup_iterator x))
          (fixup_iterator (fixup_iterator y))
          = (fixedOps ops).beq (fixup_iterator x) (fixup_iterator y) := by
  obtain ⟨hr, hp, hv, hd, hc⟩ := iterator_fixup_meta_some_inv c m h
  refine ⟨?_, by funext vc; cases vc <;> rfl,
    fun σ α β ρ ops x y => ⟨rfl, rfl, rfl, rfl⟩⟩
  rw [iterator_fixup_meta_eq (fixupAsCursorTy c m) m.reference m.pointer hr hp,
    show detail.inferred_value_type (fixupAsCursorTy c m) m.reference = m.value_type from rfl,
    show detail.inferred_difference_type (fixupAsCursorTy c m) = m.difference_type from rfl,
    show detail.inferred_iterator_category (fixupAsCursorTy c m) = m.iterator_category from rfl]

/-- Witness for C10: re-wrapping the wrap of `bareCursor` computes the
same metadata again. -/
theorem wrap_metadata_idempotent_witness :
    iterator_fixup_meta (fixupAsCursorTy bareCursor bareMeta) = some bareMeta :=
  (wrap_metadata_idempotent bareCursor bareMeta rfl).1
